import Mathlib

/-!
Shallow embedding of the SentrAIX scheduler (src/index.ts): a background
poller that asks a remote API to process pending billing events and trigger
due schedules, authenticating with a static API key or a cached OAuth2
client-credentials token, with bounded retry around each outbound call.

HTTP calls are modelled by outcome environments: a function from the attempt
index to the outcome the network produced for that attempt (an exception, or
a resolved response). State (the module-level token cache) is passed
explicitly. JS truthiness of strings (empty string is falsy) and of numbers
(0 is falsy) is modelled explicitly where the source relies on it.
-/

namespace Scheduler

/-- Configuration constants derived from the environment, after the source's
defaulting (`process.env.X || ''`): every field is a plain string, with the
empty string standing for "unset", exactly as in the source module. -/
structure Config where
  API_KEY : String
  KEYCLOAK_ISSUER_URL : String
  KEYCLOAK_REALM : String
  KEYCLOAK_CLIENT_ID : String
  KEYCLOAK_CLIENT_SECRET : String

/-- JS truthiness guard of line 41: the token fetch proceeds only when all
four Keycloak client-credentials fields are non-empty
(`if (!KEYCLOAK_ISSUER_URL || !KEYCLOAK_REALM || ...) return null`). -/
def keycloakComplete (cfg : Config) : Bool :=
  cfg.KEYCLOAK_ISSUER_URL != "" && cfg.KEYCLOAK_REALM != "" &&
  cfg.KEYCLOAK_CLIENT_ID != "" && cfg.KEYCLOAK_CLIENT_SECRET != ""

/-- The module-level token cache: `let accessToken = null` and
`let accessTokenExpiresAt = 0`. Times are milliseconds as JS numbers,
modelled as integers. -/
structure AuthState where
  accessToken : Option String
  accessTokenExpiresAt : Int
  deriving DecidableEq

/-- The cache at module load: `accessToken = null`, `accessTokenExpiresAt = 0`. -/
def initialAuthState : AuthState := { accessToken := none, accessTokenExpiresAt := 0 }

/-- Body of the token endpoint's JSON reply as the source reads it:
`data.access_token` and `data.expires_in`, each possibly absent. -/
structure TokenData where
  access_token : Option String
  expires_in : Option Int
  deriving DecidableEq

/-- Resolved value of `axios.post` to the token endpoint: a response object
whose `data` may be null or undefined. -/
structure TokenHttpResp where
  data : Option TokenData
  deriving DecidableEq

/-- Outcome of the `await axios.post(tokenUrl, ...)` call: either the await
throws (network error, non-2xx, timeout), or it resolves; the source also
guards against a falsy resolved value (`resp && ...`), so the resolved value
is an `Option`. -/
inductive TokenFetchOutcome where
  | throws
  | resolved (r : Option TokenHttpResp)
  deriving DecidableEq

/-- JS truthiness of a possibly-absent string: present and non-empty. -/
def strTruthy : Option String → Bool
  | none => false
  | some s => s != ""

/-- JS `v || dflt` on a possibly-absent number, as in
`resp.data.expires_in || 300`: absent and 0 are falsy. -/
def jsOrNum (v : Option Int) (dflt : Int) : Int :=
  match v with
  | none => dflt
  | some n => if n = 0 then dflt else n

/-- Result of one run of `fetchAccessToken`: the returned value (or a thrown
error, propagated to the caller), the token cache after the run, and whether
the HTTP POST to the token endpoint was made at all. -/
structure FetchResult where
  result : Except Unit (Option String)
  state : AuthState
  posted : Bool

/-- Embedding of `fetchAccessToken` (lines 40-54). If the client-credentials
configuration is incomplete it returns null without any network call.
Otherwise it POSTs to the token endpoint; a throw of the awaited call
propagates (leaving the cache untouched). On a resolved response with a
truthy `data.access_token`, it caches the token, computes
`accessTokenExpiresAt = now + (expires_in || 300) * 1000 - 30000`, and
returns the token; any other resolved shape returns null with the cache
untouched. -/
def fetchAccessToken (cfg : Config) (st : AuthState) (now : Int)
    (out : TokenFetchOutcome) : FetchResult :=
  if keycloakComplete cfg then
    match out with
    | .throws => { result := .error (), state := st, posted := true }
    | .resolved r =>
      match r with
      | some resp =>
        match resp.data with
        | some d =>
          match d.access_token with
          | some tok =>
            if tok != "" then
              { result := .ok (some tok),
                state := { accessToken := some tok,
                           accessTokenExpiresAt := now + jsOrNum d.expires_in 300 * 1000 - 30000 },
                posted := true }
            else { result := .ok none, state := st, posted := true }
          | none => { result := .ok none, state := st, posted := true }
        | none => { result := .ok none, state := st, posted := true }
      | none => { result := .ok none, state := st, posted := true }
  else { result := .ok none, state := st, posted := false }

/-- The truthiness-and-freshness test of line 58:
`accessToken && Date.now() < accessTokenExpiresAt`. -/
def tokenCacheValid (st : AuthState) (now : Int) : Bool :=
  strTruthy st.accessToken && now < st.accessTokenExpiresAt

/-- Result of one run of `getAccessToken`: the returned credential, the token
cache after the run, whether the token endpoint was invoked, and whether the
catch-branch warning (`console.warn('[scheduler] Failed to fetch ...')`) was
logged. `getAccessToken` never throws: the only call that can throw is
wrapped in try/catch. -/
structure GetResult where
  token : Option String
  state : AuthState
  posted : Bool
  warned : Bool
  deriving DecidableEq

/-- Embedding of `getAccessToken` (lines 56-67). A truthy `API_KEY` is
returned at once; a truthy, unexpired cached token is returned next; else
`fetchAccessToken` runs, its throw being caught, logged as a warning, and
converted to null. -/
def getAccessToken (cfg : Config) (st : AuthState) (now : Int)
    (out : TokenFetchOutcome) : GetResult :=
  if cfg.API_KEY != "" then
    { token := some cfg.API_KEY, state := st, posted := false, warned := false }
  else if tokenCacheValid st now then
    { token := st.accessToken, state := st, posted := false, warned := false }
  else
    let f := fetchAccessToken cfg st now out
    match f.result with
    | .ok t => { token := t, state := f.state, posted := f.posted, warned := false }
    | .error _ => { token := none, state := f.state, posted := f.posted, warned := true }

/-- Embedding of the request interceptor (lines 69-76): resolve a credential
and, when it is truthy, attach `Authorization: Bearer <token>`; the request
is forwarded either way. Returns the header value (none = no Authorization
header) together with the credential-provider effects. -/
def requestAuthorization (cfg : Config) (st : AuthState) (now : Int)
    (out : TokenFetchOutcome) : Option String × GetResult :=
  let g := getAccessToken cfg st now out
  match g.token with
  | some t => if t != "" then (some ("Bearer " ++ t), g) else (none, g)
  | none => (none, g)

/-- The fields of a thrown JS error that the cycle-level catch blocks
inspect: whether `err.response`, `err.request` are truthy and whether
`err.errors` is an array (axios error / AggregateError shapes). -/
structure JsError where
  hasResponse : Bool
  hasRequest : Bool
  errorsIsArray : Bool
  deriving DecidableEq

/-- A resolved HTTP response from the target API: `status` plus the parsed
body `data`, whose shape depends on the endpoint. -/
structure HttpResp (α : Type) where
  status : Int
  data : α
  deriving DecidableEq

/-- Outcome of one attempt's `await axiosClient.post/get`: either the await
throws, or it resolves; the source guards against a falsy resolved value
(`resp && ...`), so the resolved value is an `Option`. -/
inductive CallOutcome (α : Type) where
  | throws (e : JsError)
  | resolved (r : Option (HttpResp α))
  deriving DecidableEq

/-- Error produced by one failed attempt inside the retry wrapper: either the
underlying call threw, or it resolved with an unacceptable status and was
converted into `new Error(...)` with `err.response = resp` (the original,
possibly falsy, response is carried along). -/
inductive OpError (α : Type) where
  | thrown (e : JsError)
  | badStatus (response : Option (HttpResp α))
  deriving DecidableEq

/-- The attempt body shared verbatim by `processPending`,
`fetchDueSchedules` and `triggerSchedule` (lines 83-90, 95-103, 107-115):
a throw of the awaited call fails the attempt; a resolved response passes
iff `resp && resp.status >= 200 && resp.status < 300`, in which case
`resp.data` is returned; otherwise an error carrying the response is
thrown. -/
def attemptCheck : CallOutcome α → Except (OpError α) α
  | .throws e => .error (.thrown e)
  | .resolved none => .error (.badStatus none)
  | .resolved (some resp) =>
    if 200 ≤ resp.status ∧ resp.status < 300 then .ok resp.data
    else .error (.badStatus (some resp))

/-- Modelled from the p-retry dependency's documented behaviour (the retry
wrapper is the external `p-retry` package, not repository code): with
`remaining` retries left, run the attempt at index `idx`; on the last
attempt the outcome, success or failure, is final; earlier failures move on
to the next attempt. -/
def pRetryGo (op : Nat → Except ε α) (idx : Nat) : Nat → Except ε α
  | 0 => op idx
  | r + 1 =>
    match op idx with
    | .ok a => .ok a
    | .error _ => pRetryGo op (idx + 1) r

/-- `pRetry(fn, { retries })`: run `fn` up to `retries + 1` times (attempt
indices 0, 1, ..., retries); return the first success, or, after exhausting
all attempts, the last error. -/
def pRetry (op : Nat → Except ε α) (retries : Nat) : Except ε α :=
  pRetryGo op 0 retries

/-- Embedding of `processPending` (lines 82-92): POST
`/billing/process-pending` with body `{ limit }` under `pRetry` with
`retries: 3`. The network's response to the attempt with index `i` is
`outs i`. -/
def processPending (limit : Int) (outs : Nat → CallOutcome α) : Except (OpError α) α :=
  pRetry (fun i => attemptCheck (outs i)) 3

/-- An item of the due-schedules list: `{ id, nextRunAt }`. -/
structure ScheduleItem where
  id : String
  nextRunAt : String
  deriving DecidableEq

/-- Embedding of `fetchDueSchedules` (lines 94-104): GET
`/scheduling/due?limit=<n>` under `pRetry` with `retries: 2`; the body is
the due list, possibly null/undefined. -/
def fetchDueSchedules (limit : Int)
    (outs : Nat → CallOutcome (Option (List ScheduleItem))) :
    Except (OpError (Option (List ScheduleItem))) (Option (List ScheduleItem)) :=
  pRetry (fun i => attemptCheck (outs i)) 2

/-- Embedding of `triggerSchedule` (lines 106-116): POST
`/scheduling/request` with body `{ testExecutionRequestId, scheduledAt }`
under `pRetry` with `retries: 2`. -/
def triggerSchedule (requestId : String) (scheduledAt : String)
    (outs : Nat → CallOutcome α) : Except (OpError α) α :=
  pRetry (fun i => attemptCheck (outs i)) 2

/-- Truthiness of `e?.response` in the billing catch block: a thrown JS
error has it iff its `response` field is truthy; the status error built by
the attempt body carries `err.response = resp`, truthy iff the resolved
value was not falsy. -/
def errHasResponse : OpError α → Bool
  | .thrown e => e.hasResponse
  | .badStatus r => r.isSome

/-- Truthiness of `e?.request`: the status error built by the attempt body
is a plain `new Error` with no `request` field. -/
def errHasRequest : OpError α → Bool
  | .thrown e => e.hasRequest
  | .badStatus _ => false

/-- `Array.isArray(e?.errors)`: false for the attempt body's plain error. -/
def errHasErrorsArray : OpError α → Bool
  | .thrown e => e.errorsIsArray
  | .badStatus _ => false

/-- What one billing cycle logs: the success log, or one of the four
structured error diagnostics of the catch block (lines 123-145). The cycle
itself always returns — the catch swallows the error. -/
inductive BillingLog (α : Type) where
  | success (data : α)
  | responseError (e : OpError α)
  | noResponse (e : OpError α)
  | aggregateErrors (e : OpError α)
  | unknown (e : OpError α)
  deriving DecidableEq

/-- The billing catch block's classification of the final error (lines
126-141): `e?.response` first, then `e?.request`, then
`Array.isArray(e?.errors)`, else unknown. -/
def classifyBillingError (e : OpError α) : BillingLog α :=
  if errHasResponse e then .responseError e
  else if errHasRequest e then .noResponse e
  else if errHasErrorsArray e then .aggregateErrors e
  else .unknown e

/-- Embedding of `runBillingOnce` (lines 118-146): call `processPending`
with the batch size; log its result on success, classify and log the final
error otherwise. Total — the cycle never throws, so a failed cycle cannot
kill the poll loop. -/
def runBillingOnce (limit : Int) (outs : Nat → CallOutcome α) : BillingLog α :=
  match processPending limit outs with
  | .ok d => .success d
  | .error e => classifyBillingError e

/-- What the scheduling cycle records for one due item: the inner try/catch
of the for-loop (lines 154-159) either logs the trigger's result or logs
the failure and moves on. -/
inductive ItemLog (α : Type) where
  | triggered (id : String) (result : α)
  | failed (id : String) (e : OpError α)
  deriving DecidableEq

/-- Processing of a single due item inside the loop: trigger it (with its
own retry budget) and convert the outcome into the item's log entry. The
trigger outcomes `touts` are those the network supplies for this item. -/
def processItem (touts : ScheduleItem → Nat → CallOutcome α) (item : ScheduleItem) :
    ItemLog α :=
  match triggerSchedule item.id item.nextRunAt (touts item) with
  | .ok r => .triggered item.id r
  | .error e => .failed item.id e

/-- What one scheduling cycle logs: the outer catch fires only for the
due-list fetch (every per-item failure is caught inside the loop), else
the cycle runs the loop over `due || []` and records one entry per item. -/
inductive SchedLog (α : Type) where
  | fetchError (e : OpError (Option (List ScheduleItem)))
  | ran (entries : List (ItemLog α))
  deriving DecidableEq

/-- Embedding of `runSchedulesOnce` (lines 148-164): fetch the due list;
on failure the outer catch logs and returns; on success iterate
`for (const item of due || [])`, triggering each item under its own
try/catch so one item's failure never skips the rest. -/
def runSchedulesOnce (limit : Int)
    (fetchOuts : Nat → CallOutcome (Option (List ScheduleItem)))
    (touts : ScheduleItem → Nat → CallOutcome α) : SchedLog α :=
  match fetchDueSchedules limit fetchOuts with
  | .error e => .fetchError e
  | .ok due => .ran ((due.getD []).map (processItem touts))

/-- The raw environment variables the poll intervals are read from:
`none` is an unset variable; JS `||` additionally treats a set-but-empty
variable as unset. -/
structure Env where
  POLL_INTERVAL_BILLING_SECONDS : Option String
  POLL_INTERVAL_SCHEDULER_SECONDS : Option String
  POLL_INTERVAL_SECONDS : Option String
  deriving DecidableEq

/-- JS `process.env.X || dflt`: an unset or empty variable falls through. -/
def envOr (v : Option String) (dflt : String) : String :=
  match v with
  | none => dflt
  | some s => if s = "" then dflt else s

/-- Longest digit run at the head of the character list. -/
def leadingDigits : List Char → List Char
  | [] => []
  | c :: cs => if c.isDigit then c :: leadingDigits cs else []

/-- Decimal value of a digit list. -/
def digitsToNat (l : List Char) : Nat :=
  l.foldl (fun a c => a * 10 + (c.toNat - 48)) 0

/-- JS `parseInt(s, 10)` restricted to what the source can meet: skip
leading whitespace, read an optional sign and then the longest digit run;
`none` models NaN (no digits). -/
def parseIntJS (s : String) : Option Int :=
  let cs := s.toList.dropWhile (fun c => c == ' ' || c == '\t' || c == '\n' || c == '\r')
  match cs with
  | '-' :: rest =>
    let d := leadingDigits rest
    if d.isEmpty then none else some (-(Int.ofNat (digitsToNat d)))
  | '+' :: rest =>
    let d := leadingDigits rest
    if d.isEmpty then none else some (Int.ofNat (digitsToNat d))
  | _ =>
    let d := leadingDigits cs
    if d.isEmpty then none else some (Int.ofNat (digitsToNat d))

/-- Line 17: `parseInt(process.env.POLL_INTERVAL_BILLING_SECONDS ||
process.env.POLL_INTERVAL_SECONDS || '120', 10)`. -/
def POLL_INTERVAL_BILLING_SECONDS (env : Env) : Option Int :=
  parseIntJS (envOr env.POLL_INTERVAL_BILLING_SECONDS
    (envOr env.POLL_INTERVAL_SECONDS ("120")))

/-- Line 18: `parseInt(process.env.POLL_INTERVAL_SCHEDULER_SECONDS ||
process.env.POLL_INTERVAL_SECONDS || '120', 10)`. -/
def POLL_INTERVAL_SCHEDULER_SECONDS (env : Env) : Option Int :=
  parseIntJS (envOr env.POLL_INTERVAL_SCHEDULER_SECONDS
    (envOr env.POLL_INTERVAL_SECONDS ("120")))

/-- JS falsiness of a possibly-unset environment variable: unset or empty. -/
def envFalsy (v : Option String) : Prop := v = none ∨ v = some ""

/-- A resolved token-endpoint response in which the guard
`resp && resp.data && resp.data.access_token` of line 47 is falsy: the
response value, its `data`, or its `data.access_token` is absent or falsy. -/
def respLacksToken : Option TokenHttpResp → Bool
  | none => true
  | some resp =>
    match resp.data with
    | none => true
    | some d =>
      match d.access_token with
      | none => true
      | some s => s == ""

/-- A concrete configuration with a static API key, for witnesses. -/
def cfgStatic : Config :=
  { API_KEY := "k", KEYCLOAK_ISSUER_URL := "", KEYCLOAK_REALM := "",
    KEYCLOAK_CLIENT_ID := "", KEYCLOAK_CLIENT_SECRET := "" }

/-- A concrete configuration with complete client-credentials fields and no
static key, for witnesses and counterexamples. -/
def cfgKc : Config :=
  { API_KEY := "", KEYCLOAK_ISSUER_URL := "http://kc", KEYCLOAK_REALM := "r",
    KEYCLOAK_CLIENT_ID := "c", KEYCLOAK_CLIENT_SECRET := "s" }

/-- Concrete due items for witnesses. -/
def itemA : ScheduleItem := { id := "a", nextRunAt := "2026-01-01T00:00:00Z" }

/-- Second concrete due item, whose trigger will throw in the witness. -/
def itemB : ScheduleItem := { id := "b", nextRunAt := "2026-01-02T00:00:00Z" }

/-- Third concrete due item. -/
def itemC : ScheduleItem := { id := "c", nextRunAt := "2026-01-03T00:00:00Z" }

/-- A due-schedules fetch that resolves 200 with the three concrete items. -/
def dueFetchOutsEx : Nat → CallOutcome (Option (List ScheduleItem)) :=
  fun _ => .resolved (some { status := 200, data := some [itemA, itemB, itemC] })

/-- Trigger outcomes in which every attempt for item `b` throws while every
attempt for any other item resolves 201. -/
def trigOutsEx : ScheduleItem → Nat → CallOutcome Nat :=
  fun item _ =>
    if item.id = "b" then .throws { hasResponse := false, hasRequest := true, errorsIsArray := false }
    else .resolved (some { status := 201, data := 1 })

/-- A concrete environment with a billing-specific interval, no
scheduler-specific interval and a shared interval. -/
def envEx : Env :=
  { POLL_INTERVAL_BILLING_SECONDS := some ("60"),
    POLL_INTERVAL_SCHEDULER_SECONDS := none,
    POLL_INTERVAL_SECONDS := some ("30") }

/-- The empty environment: every poll-interval variable unset. -/
def envNone : Env :=
  { POLL_INTERVAL_BILLING_SECONDS := none,
    POLL_INTERVAL_SCHEDULER_SECONDS := none,
    POLL_INTERVAL_SECONDS := none }

/-- Outcomes that fail on attempts 0 and 1 (503) and succeed on every later
attempt (200), for the C3 witness. -/
def flakyOuts : Nat → CallOutcome Nat :=
  fun i => if i < 2 then .resolved (some { status := 503, data := 0 })
    else .resolved (some { status := 200, data := 7 })

/-- Outcomes for which every attempt throws, for the C3 witness. -/
def alwaysThrowOuts : Nat → CallOutcome Nat :=
  fun _ => .throws { hasResponse := false, hasRequest := true, errorsIsArray := false }

/-- In the fetch branch of `getAccessToken` (static key absent, cache
invalid), the cache after the call is whatever `fetchAccessToken` left. -/
theorem getAccessToken_state_eq_fetch (cfg : Config) (st : AuthState) (now : Int)
    (out : TokenFetchOutcome) (hk : cfg.API_KEY = "")
    (hv : tokenCacheValid st now = false) :
    (getAccessToken cfg st now out).state = (fetchAccessToken cfg st now out).state := by
  simp only [getAccessToken, hk, bne_self_eq_false, Bool.false_eq_true, if_false, hv]
  split <;> rfl

/-- A failing fetch outcome leaves the `fetchAccessToken` cache untouched. -/
theorem fetchAccessToken_fail_state (cfg : Config) (st : AuthState) (now : Int) :
    (fetchAccessToken cfg st now .throws).state = st ∧
    ∀ r, respLacksToken r = true → (fetchAccessToken cfg st now (.resolved r)).state = st := by
  constructor
  · by_cases hc : keycloakComplete cfg <;> simp [fetchAccessToken, hc]
  · intro r hr
    by_cases hc : keycloakComplete cfg <;>
      rcases r with _ | ⟨_ | ⟨_ | tok, ei⟩⟩ <;>
      simp_all [fetchAccessToken, respLacksToken]

end Scheduler

namespace Scheduler

/-- Claim C1: with a non-empty `API_KEY` configured, `getAccessToken`
returns the static key unchanged: no POST to the token endpoint is made
(`posted = false`, independently of whatever the network would have
answered), the token cache is untouched, and no warning is logged. -/
theorem C1_static_key_bypasses_token_endpoint
    (cfg : Config) (st : AuthState) (now : Int) (out : TokenFetchOutcome)
    (h : cfg.API_KEY ≠ "") :
    getAccessToken cfg st now out =
      { token := some cfg.API_KEY, state := st, posted := false, warned := false } := by
  simp [getAccessToken, h]

/-- Witness for C1 at a concrete configuration and outcome. -/
theorem C1_static_key_witness :
    cfgStatic.API_KEY ≠ "" ∧
    getAccessToken cfgStatic initialAuthState 0 .throws =
      { token := some ("k"), state := initialAuthState, posted := false, warned := false } :=
  ⟨by decide, C1_static_key_bypasses_token_endpoint _ _ _ _ (by decide)⟩

/-- Claim C8: a successful token response carrying an `access_token` but a
missing (or 0, hence falsy) `expires_in` is not treated as malformed: the
default lifetime 300 s is substituted, the token is cached and returned,
and the cached expiry is fetch-time + 270000 ms. -/
theorem C8_default_expires_in
    (cfg : Config) (st : AuthState) (now : Int) (tok : String) (ei : Option Int)
    (hc : keycloakComplete cfg = true) (ht : tok ≠ "")
    (hei : ei = none ∨ ei = some 0) :
    fetchAccessToken cfg st now
        (.resolved (some { data := some { access_token := some tok, expires_in := ei } })) =
      { result := .ok (some tok),
        state := { accessToken := some tok, accessTokenExpiresAt := now + 270000 },
        posted := true } := by
  rcases hei with h | h <;> subst h <;>
    simp [fetchAccessToken, hc, ht, jsOrNum, AuthState.mk.injEq] <;> ring

/-- Witness for C8: complete credentials, `expires_in` absent. -/
theorem C8_default_expires_in_witness :
    keycloakComplete cfgKc = true ∧
    fetchAccessToken cfgKc initialAuthState 1000
        (.resolved (some { data := some { access_token := some ("t"), expires_in := none } })) =
      { result := .ok (some ("t")),
        state := { accessToken := some ("t"), accessTokenExpiresAt := 271000 },
        posted := true } :=
  ⟨by decide, C8_default_expires_in _ _ _ _ _ (by decide) (by decide) (Or.inl rfl)⟩

/-- Claim C9: a failing token fetch is atomic with respect to the cache —
whether the HTTP call throws or the response lacks a truthy `access_token`,
both `accessToken` and `accessTokenExpiresAt` are left exactly as they
were, through `fetchAccessToken` and through `getAccessToken`. -/
theorem C9_failed_fetch_preserves_cache (cfg : Config) (st : AuthState) (now : Int) :
    (fetchAccessToken cfg st now .throws).state = st ∧
    (∀ r, respLacksToken r = true → (fetchAccessToken cfg st now (.resolved r)).state = st) ∧
    (getAccessToken cfg st now .throws).state = st ∧
    (∀ r, respLacksToken r = true → (getAccessToken cfg st now (.resolved r)).state = st) := by
  obtain ⟨h1, h2⟩ := fetchAccessToken_fail_state cfg st now
  refine ⟨h1, h2, ?_, ?_⟩
  · by_cases hk : cfg.API_KEY = ""
    · by_cases hv : tokenCacheValid st now
      · simp [getAccessToken, hk, hv]
      · rw [getAccessToken_state_eq_fetch cfg st now _ hk (by simpa using hv)]
        exact h1
    · simp [getAccessToken, hk]
  · intro r hr
    by_cases hk : cfg.API_KEY = ""
    · by_cases hv : tokenCacheValid st now
      · simp [getAccessToken, hk, hv]
      · rw [getAccessToken_state_eq_fetch cfg st now _ hk (by simpa using hv)]
        exact h2 r hr
    · simp [getAccessToken, hk]

/-- Witness for C9 at a concrete cached state and a response with a missing
`access_token`. -/
theorem C9_failed_fetch_witness :
    respLacksToken (some { data := some { access_token := none, expires_in := some 300 } })
        = true ∧
    (getAccessToken cfgKc { accessToken := some ("old"), accessTokenExpiresAt := 5 } 9
        (.resolved (some { data := some { access_token := none, expires_in := some 300 } }))).state =
      { accessToken := some ("old"), accessTokenExpiresAt := 5 } :=
  ⟨by decide,
    (C9_failed_fetch_preserves_cache _ _ _).2.2.2 _ (by decide)⟩

/-- Claim C10: when the due-schedules fetch succeeds with a null or
undefined body, the scheduling cycle iterates `due || []`, triggers
nothing, and completes without error. -/
theorem C10_null_due_body_safe (α : Type) (limit : Int)
    (fetchOuts : Nat → CallOutcome (Option (List ScheduleItem)))
    (touts : ScheduleItem → Nat → CallOutcome α)
    (hf : fetchDueSchedules limit fetchOuts = .ok none) :
    runSchedulesOnce limit fetchOuts touts = .ran [] := by
  simp [runSchedulesOnce, hf]

/-- With complete client-credentials configuration, `fetchAccessToken`
always POSTs to the token endpoint, whatever the outcome. -/
theorem fetchAccessToken_posted (cfg : Config) (st : AuthState) (now : Int)
    (out : TokenFetchOutcome) (hc : keycloakComplete cfg = true) :
    (fetchAccessToken cfg st now out).posted = true := by
  cases out with
  | throws => simp [fetchAccessToken, hc]
  | resolved r =>
    rcases r with _ | ⟨_ | ⟨_ | tok, ei⟩⟩ <;> simp [fetchAccessToken, hc]
    by_cases htok : tok = "" <;> simp [htok]

/-- In the fetch branch of `getAccessToken`, the endpoint is invoked iff
`fetchAccessToken` invoked it. -/
theorem getAccessToken_posted_eq_fetch (cfg : Config) (st : AuthState) (now : Int)
    (out : TokenFetchOutcome) (hk : cfg.API_KEY = "")
    (hv : tokenCacheValid st now = false) :
    (getAccessToken cfg st now out).posted = (fetchAccessToken cfg st now out).posted := by
  simp only [getAccessToken, hk, bne_self_eq_false, Bool.false_eq_true, if_false, hv]
  split <;> rfl

/-- Claim C2: with complete client-credentials fields and no `API_KEY`:
(a) the first credential request (empty cache) POSTs to the token endpoint;
(b) on a success with `expires_in = 300` the token is cached with expiry
fetch-time + 270000 ms (= 300·1000 − 30000) and returned;
(c) while `now < expiresAt`, the cached token is returned with no further
fetch and the cache untouched;
(d) once `now ≥ expiresAt`, a new fetch is attempted. -/
theorem C2_token_fetch_cache_expiry
    (cfg : Config) (hk : cfg.API_KEY = "") (hc : keycloakComplete cfg = true) :
    (∀ (now : Int) (out : TokenFetchOutcome),
      (getAccessToken cfg initialAuthState now out).posted = true) ∧
    (∀ (st : AuthState) (now : Int) (tok : String) (ei : Int),
      tokenCacheValid st now = false → tok ≠ "" → ei ≠ 0 →
      getAccessToken cfg st now
          (.resolved (some { data := some { access_token := some tok, expires_in := some ei } })) =
        { token := some tok,
          state := { accessToken := some tok,
                     accessTokenExpiresAt := now + ei * 1000 - 30000 },
          posted := true, warned := false }) ∧
    (∀ (tok : String) (e now : Int) (out : TokenFetchOutcome), tok ≠ "" → now < e →
      getAccessToken cfg { accessToken := some tok, accessTokenExpiresAt := e } now out =
        { token := some tok,
          state := { accessToken := some tok, accessTokenExpiresAt := e },
          posted := false, warned := false }) ∧
    (∀ (tok : String) (e now : Int) (out : TokenFetchOutcome), e ≤ now →
      (getAccessToken cfg { accessToken := some tok, accessTokenExpiresAt := e }
        now out).posted = true) := by
  refine ⟨?_, ?_, ?_, ?_⟩
  · intro now out
    have hv : tokenCacheValid initialAuthState now = false := by
      simp [tokenCacheValid, initialAuthState, strTruthy]
    rw [getAccessToken_posted_eq_fetch cfg _ now out hk hv]
    exact fetchAccessToken_posted cfg _ now out hc
  · intro st now tok ei hv htok hei
    have hf : fetchAccessToken cfg st now
        (.resolved (some { data := some { access_token := some tok, expires_in := some ei } })) =
        { result := .ok (some tok),
          state := { accessToken := some tok,
                     accessTokenExpiresAt := now + ei * 1000 - 30000 },
          posted := true } := by
      simp [fetchAccessToken, hc, htok, jsOrNum, hei, AuthState.mk.injEq]
    simp [getAccessToken, hk, hv, hf]
  · intro tok e now out htok hlt
    have hv : tokenCacheValid { accessToken := some tok, accessTokenExpiresAt := e } now = true := by
      simp [tokenCacheValid, strTruthy, htok, hlt]
    simp [getAccessToken, hk, hv]
  · intro tok e now out hle
    have hv : tokenCacheValid { accessToken := some tok, accessTokenExpiresAt := e } now = false := by
      simp [tokenCacheValid, strTruthy]
      intro _
      omega
    rw [getAccessToken_posted_eq_fetch cfg _ now out hk hv]
    exact fetchAccessToken_posted cfg _ now out hc

/-- Witness for C2 at the concrete client-credentials configuration,
exercising all four conjuncts. -/
theorem C2_token_fetch_witness :
    (getAccessToken cfgKc initialAuthState 0 .throws).posted = true ∧
    getAccessToken cfgKc initialAuthState 1000
        (.resolved (some { data := some { access_token := some ("t"), expires_in := some 300 } })) =
      { token := some ("t"),
        state := { accessToken := some ("t"), accessTokenExpiresAt := 271000 },
        posted := true, warned := false } ∧
    getAccessToken cfgKc { accessToken := some ("t"), accessTokenExpiresAt := 271000 }
        5000 .throws =
      { token := some ("t"),
        state := { accessToken := some ("t"), accessTokenExpiresAt := 271000 },
        posted := false, warned := false } ∧
    (getAccessToken cfgKc { accessToken := some ("t"), accessTokenExpiresAt := 10 }
        10 .throws).posted = true := by
  have h := C2_token_fetch_cache_expiry cfgKc rfl (by decide)
  refine ⟨h.1 0 .throws, ?_, h.2.2.1 ("t") 271000 5000 .throws (by decide) (by decide),
         h.2.2.2 ("t") 10 10 .throws (by decide)⟩
  have hb := h.2.1 initialAuthState 1000 ("t") 300 (by decide) (by decide) (by decide)
  simpa using hb

/-- Claim C4: under the retry wrapper an attempt fails exactly when the
underlying call throws or resolves with a status outside 200-299; in the
non-2xx case the thrown error's `response` field carries the original
response; in the 2xx case `resp.data` is returned. -/
theorem C4_attempt_failure_criterion (α : Type) (e : JsError) (resp : HttpResp α) :
    attemptCheck (CallOutcome.throws e : CallOutcome α) = .error (.thrown e) ∧
    ((∃ v, attemptCheck (.resolved (some resp)) = Except.ok v) ↔
      200 ≤ resp.status ∧ resp.status < 300) ∧
    (200 ≤ resp.status ∧ resp.status < 300 →
      attemptCheck (.resolved (some resp)) = .ok resp.data) ∧
    (¬(200 ≤ resp.status ∧ resp.status < 300) →
      attemptCheck (.resolved (some resp)) = .error (.badStatus (some resp))) := by
  refine ⟨rfl, ?_, ?_, ?_⟩ <;>
    by_cases h : 200 ≤ resp.status ∧ resp.status < 300 <;>
    simp [attemptCheck, h]

/-- Witness for C4: a thrown attempt, a 204 success and a 500 failure. -/
theorem C4_attempt_failure_witness :
    attemptCheck (CallOutcome.throws ⟨true, false, false⟩ : CallOutcome Nat) =
      .error (.thrown ⟨true, false, false⟩) ∧
    attemptCheck (CallOutcome.resolved (some ⟨204, 7⟩) : CallOutcome Nat) = .ok 7 ∧
    attemptCheck (CallOutcome.resolved (some ⟨500, 7⟩) : CallOutcome Nat) =
      .error (.badStatus (some ⟨500, 7⟩)) := by
  have h1 := C4_attempt_failure_criterion Nat ⟨true, false, false⟩ ⟨204, 7⟩
  have h2 := C4_attempt_failure_criterion Nat ⟨true, false, false⟩ ⟨500, 7⟩
  exact ⟨h1.1, h1.2.2.1 (by norm_num), h2.2.2.2 (by norm_num)⟩

/-- A successful attempt ends the retry loop at once. -/
theorem pRetryGo_ok (op : Nat → Except ε α) (idx r : Nat) (a : α)
    (h : op idx = .ok a) : pRetryGo op idx r = .ok a := by
  cases r <;> simp [pRetryGo, h]

/-- A failed attempt with retries left moves on to the next attempt. -/
theorem pRetryGo_err_step (op : Nat → Except ε α) (idx r : Nat) (e : ε)
    (h : op idx = .error e) : pRetryGo op idx (r + 1) = pRetryGo op (idx + 1) r := by
  simp [pRetryGo, h]

/-- The retry loop only consults the attempts with index at most
`idx + remaining`: agreement there makes the results agree. -/
theorem pRetryGo_congr (op op' : Nat → Except ε α) :
    ∀ (r idx : Nat), (∀ i, idx ≤ i → i ≤ idx + r → op i = op' i) →
      pRetryGo op idx r = pRetryGo op' idx r := by
  intro r
  induction r with
  | zero =>
    intro idx h
    simp [pRetryGo, h idx le_rfl (by omega)]
  | succ n ih =>
    intro idx h
    simp only [pRetryGo]
    rw [h idx le_rfl (by omega)]
    cases hx : op' idx with
    | ok a => rfl
    | error e => exact ih (idx + 1) (fun i h1 h2 => h i (by omega) (by omega))

/-- Claim C3: the billing operation runs under `retries: 3` (four attempts
in all) and each scheduling operation under `retries: 2`:
(i) two failed billing attempts followed by a success make the billing
cycle report success;
(ii) four failed attempts make the retry wrapper propagate the last error,
which the cycle-level catch converts into a structured log — the cycle
returns normally, so the process stays alive;
(iii) the billing wrapper never consults an attempt beyond index 3;
(iv, v) a scheduling operation succeeds on its third attempt, and a third
consecutive failure exhausts its budget with the last error propagating. -/
theorem C3_retry_counts_and_cycle_survival (α : Type) (limit : Int)
    (outs outs' : Nat → CallOutcome α) (e0 e1 e2 e3 : OpError α) (v : α) :
    (attemptCheck (outs 0) = .error e0 → attemptCheck (outs 1) = .error e1 →
      attemptCheck (outs 2) = .ok v →
      processPending limit outs = .ok v ∧ runBillingOnce limit outs = .success v) ∧
    (attemptCheck (outs 0) = .error e0 → attemptCheck (outs 1) = .error e1 →
      attemptCheck (outs 2) = .error e2 → attemptCheck (outs 3) = .error e3 →
      processPending limit outs = .error e3 ∧
      runBillingOnce limit outs = classifyBillingError e3) ∧
    ((∀ i, i ≤ 3 → outs i = outs' i) →
      processPending limit outs = processPending limit outs') ∧
    (∀ rid sat, attemptCheck (outs 0) = .error e0 → attemptCheck (outs 1) = .error e1 →
      attemptCheck (outs 2) = .ok v → triggerSchedule rid sat outs = .ok v) ∧
    (∀ rid sat, attemptCheck (outs 0) = .error e0 → attemptCheck (outs 1) = .error e1 →
      attemptCheck (outs 2) = .error e2 → triggerSchedule rid sat outs = .error e2) := by
  refine ⟨?_, ?_, ?_, ?_, ?_⟩
  · intro h0 h1 h2
    have hp : processPending limit outs = .ok v := by
      show pRetryGo (fun i => attemptCheck (outs i)) 0 3 = .ok v
      rw [pRetryGo_err_step _ _ _ _ h0, pRetryGo_err_step _ _ _ _ h1]
      exact pRetryGo_ok _ _ _ _ h2
    exact ⟨hp, by simp [runBillingOnce, hp]⟩
  · intro h0 h1 h2 h3
    have hp : processPending limit outs = .error e3 := by
      show pRetryGo (fun i => attemptCheck (outs i)) 0 3 = .error e3
      rw [pRetryGo_err_step _ _ _ _ h0, pRetryGo_err_step _ _ _ _ h1,
        pRetryGo_err_step _ _ _ _ h2]
      exact h3
    exact ⟨hp, by simp [runBillingOnce, hp]⟩
  · intro h
    show pRetryGo (fun i => attemptCheck (outs i)) 0 3 =
      pRetryGo (fun i => attemptCheck (outs' i)) 0 3
    exact pRetryGo_congr _ _ 3 0
      (fun i h1 h2 => by
        show attemptCheck (outs i) = attemptCheck (outs' i)
        rw [h i (by omega)])
  · intro rid sat h0 h1 h2
    show pRetryGo (fun i => attemptCheck (outs i)) 0 2 = .ok v
    rw [pRetryGo_err_step _ _ _ _ h0, pRetryGo_err_step _ _ _ _ h1]
    exact pRetryGo_ok _ _ _ _ h2
  · intro rid sat h0 h1 h2
    show pRetryGo (fun i => attemptCheck (outs i)) 0 2 = .error e2
    rw [pRetryGo_err_step _ _ _ _ h0, pRetryGo_err_step _ _ _ _ h1]
    exact h2

/-- Witness for C3: a twice-failing-then-succeeding call makes the billing
cycle succeed; a call failing on all four attempts makes it log the final
error's classification; a thrice-failing scheduling trigger reports the
last error. -/
theorem C3_retry_counts_witness :
    processPending 100 flakyOuts = .ok 7 ∧
    runBillingOnce 100 flakyOuts = .success 7 ∧
    processPending 100 alwaysThrowOuts =
      .error (.thrown { hasResponse := false, hasRequest := true, errorsIsArray := false }) ∧
    runBillingOnce 100 alwaysThrowOuts =
      classifyBillingError
        (.thrown { hasResponse := false, hasRequest := true, errorsIsArray := false }) ∧
    triggerSchedule ("x") ("2026-01-01") alwaysThrowOuts =
      .error (.thrown { hasResponse := false, hasRequest := true, errorsIsArray := false }) := by
  have h1 := C3_retry_counts_and_cycle_survival Nat 100 flakyOuts flakyOuts
    (.badStatus (some { status := 503, data := 0 }))
    (.badStatus (some { status := 503, data := 0 }))
    (.badStatus (some { status := 503, data := 0 }))
    (.badStatus (some { status := 503, data := 0 })) 7
  have h2 := C3_retry_counts_and_cycle_survival Nat 100 alwaysThrowOuts alwaysThrowOuts
    (.thrown { hasResponse := false, hasRequest := true, errorsIsArray := false })
    (.thrown { hasResponse := false, hasRequest := true, errorsIsArray := false })
    (.thrown { hasResponse := false, hasRequest := true, errorsIsArray := false })
    (.thrown { hasResponse := false, hasRequest := true, errorsIsArray := false }) 7
  obtain ⟨ha, hb⟩ := h1.1 (by rfl) (by rfl) (by rfl)
  obtain ⟨hc, hd⟩ := h2.2.1 (by rfl) (by rfl) (by rfl) (by rfl)
  exact ⟨ha, hb, hc, hd, h2.2.2.2.2 ("x") ("2026-01-01") (by rfl) (by rfl) (by rfl)⟩

/-- Claim C5: once the due-list fetch succeeds with a list of items, the
scheduling cycle completes with exactly one log entry per item, in order,
and each item's entry is determined by that item's own trigger outcomes
alone — so one item's (retried) failure never prevents the others from
being triggered. -/
theorem C5_due_items_triggered_independently (α : Type) (limit : Int)
    (fetchOuts : Nat → CallOutcome (Option (List ScheduleItem)))
    (touts : ScheduleItem → Nat → CallOutcome α) (items : List ScheduleItem)
    (hf : fetchDueSchedules limit fetchOuts = .ok (some items)) :
    ∃ entries, runSchedulesOnce limit fetchOuts touts = SchedLog.ran entries ∧
      entries.length = items.length ∧
      ∀ (i : Nat) (h : i < items.length) (h2 : i < entries.length),
        entries[i] = processItem touts (items[i]) := by
  refine ⟨items.map (processItem touts), ?_, by simp, ?_⟩
  · simp [runSchedulesOnce, hf]
  · intro i h h2
    simp

/-- Witness for C5: three due items where every trigger attempt for the 2nd
throws; the cycle still yields one entry per item and the 1st and 3rd are
triggered. -/
theorem C5_due_items_witness :
    fetchDueSchedules 100 dueFetchOutsEx = .ok (some [itemA, itemB, itemC]) ∧
    (∃ entries, runSchedulesOnce 100 dueFetchOutsEx trigOutsEx = SchedLog.ran entries ∧
      entries.length = [itemA, itemB, itemC].length ∧
      ∀ (i : Nat) (h : i < [itemA, itemB, itemC].length) (h2 : i < entries.length),
        entries[i] = processItem trigOutsEx ([itemA, itemB, itemC][i])) ∧
    runSchedulesOnce 100 dueFetchOutsEx trigOutsEx =
      SchedLog.ran
        [ItemLog.triggered ("a") 1,
         ItemLog.failed ("b")
           (.thrown { hasResponse := false, hasRequest := true, errorsIsArray := false }),
         ItemLog.triggered ("c") 1] := by
  have hf : fetchDueSchedules 100 dueFetchOutsEx = .ok (some [itemA, itemB, itemC]) := by
    rfl
  exact ⟨hf, C5_due_items_triggered_independently Nat 100 dueFetchOutsEx trigOutsEx
    [itemA, itemB, itemC] hf, by decide⟩

/-- A resolved token response lacking a truthy `access_token` makes
`fetchAccessToken` return null (no throw). -/
theorem fetchAccessToken_fail_result (cfg : Config) (st : AuthState) (now : Int)
    (r : Option TokenHttpResp) (hr : respLacksToken r = true) :
    (fetchAccessToken cfg st now (.resolved r)).result = .ok none := by
  by_cases hc : keycloakComplete cfg <;>
    rcases r with _ | ⟨_ | ⟨_ | tok, ei⟩⟩ <;>
    simp_all [fetchAccessToken, respLacksToken]

/-- Counterexample to claim C6 as stated: with complete client-credentials
configuration, an empty cache and a token response missing `access_token`,
a genuine credential-fetch failure occurs (the endpoint was invoked,
`posted = true`, and no credential results), yet no warning is logged
(`warned = false`): the catch-block warning fires only when the fetch
throws, not on a malformed or token-less response. -/
theorem C6_counterexample_missing_token_silent :
    (getAccessToken cfgKc initialAuthState 0
        (.resolved (some { data := some { access_token := none, expires_in := none } }))).token
      = none ∧
    (getAccessToken cfgKc initialAuthState 0
        (.resolved (some { data := some { access_token := none, expires_in := none } }))).posted
      = true ∧
    (getAccessToken cfgKc initialAuthState 0
        (.resolved (some { data := some { access_token := none, expires_in := none } }))).warned
      = false := by
  decide

/-- Claim C6, amended: on any credential-fetch failure `getAccessToken`
returns absent without raising, the token cache is untouched, and the
subsequent outbound request is still sent, carrying no Authorization
header; a warning is logged exactly in the thrown-fetch case (network
error), while a malformed response or one missing `access_token` yields
absent silently. -/
theorem C6_fetch_failure_degrades_unauthenticated
    (cfg : Config) (st : AuthState) (now : Int)
    (hk : cfg.API_KEY = "") (hv : tokenCacheValid st now = false) :
    (keycloakComplete cfg = true →
      getAccessToken cfg st now .throws =
        { token := none, state := st, posted := true, warned := true } ∧
      (requestAuthorization cfg st now .throws).1 = none) ∧
    (∀ r, respLacksToken r = true →
      (getAccessToken cfg st now (.resolved r)).token = none ∧
      (getAccessToken cfg st now (.resolved r)).warned = false ∧
      (getAccessToken cfg st now (.resolved r)).state = st ∧
      (requestAuthorization cfg st now (.resolved r)).1 = none) := by
  constructor
  · intro hc
    have hg : getAccessToken cfg st now .throws =
        { token := none, state := st, posted := true, warned := true } := by
      simp [getAccessToken, hk, hv, fetchAccessToken, hc]
    exact ⟨hg, by simp [requestAuthorization, hg]⟩
  · intro r hr
    have hres := fetchAccessToken_fail_result cfg st now r hr
    have hst := (fetchAccessToken_fail_state cfg st now).2 r hr
    have hg : getAccessToken cfg st now (.resolved r) =
        { token := none, state := st,
          posted := (fetchAccessToken cfg st now (.resolved r)).posted, warned := false } := by
      simp only [getAccessToken, hk, bne_self_eq_false, Bool.false_eq_true, if_false, hv]
      rw [hres] at *
      simp [hres, hst]
    exact ⟨by simp [hg], by simp [hg], by simp [hg], by simp [requestAuthorization, hg]⟩

/-- Witness for the amended C6: both failure modes at the concrete
client-credentials configuration. -/
theorem C6_fetch_failure_witness :
    (getAccessToken cfgKc initialAuthState 0 .throws =
      { token := none, state := initialAuthState, posted := true, warned := true }) ∧
    (requestAuthorization cfgKc initialAuthState 0 .throws).1 = none ∧
    (getAccessToken cfgKc initialAuthState 0 (.resolved none)).token = none ∧
    (getAccessToken cfgKc initialAuthState 0 (.resolved none)).warned = false ∧
    (requestAuthorization cfgKc initialAuthState 0 (.resolved none)).1 = none := by
  have h := C6_fetch_failure_degrades_unauthenticated cfgKc initialAuthState 0 rfl (by decide)
  have ha := h.1 (by decide)
  have hb := h.2 none (by decide)
  exact ⟨ha.1, ha.2, hb.1, hb.2.1, hb.2.2.2⟩

/-- Claim C7: each poll cycle's interval comes from its component-specific
variable when that is set (and non-empty, which JS `||` treats as unset),
falls back to the shared `POLL_INTERVAL_SECONDS` otherwise, and defaults
to 120 seconds when both are unset. -/
theorem C7_poll_interval_resolution (env : Env) :
    (∀ s, env.POLL_INTERVAL_BILLING_SECONDS = some s → s ≠ "" →
      POLL_INTERVAL_BILLING_SECONDS env = parseIntJS s) ∧
    (envFalsy env.POLL_INTERVAL_BILLING_SECONDS →
      ∀ s, env.POLL_INTERVAL_SECONDS = some s → s ≠ "" →
        POLL_INTERVAL_BILLING_SECONDS env = parseIntJS s) ∧
    (envFalsy env.POLL_INTERVAL_BILLING_SECONDS → envFalsy env.POLL_INTERVAL_SECONDS →
      POLL_INTERVAL_BILLING_SECONDS env = some 120) ∧
    (∀ s, env.POLL_INTERVAL_SCHEDULER_SECONDS = some s → s ≠ "" →
      POLL_INTERVAL_SCHEDULER_SECONDS env = parseIntJS s) ∧
    (envFalsy env.POLL_INTERVAL_SCHEDULER_SECONDS →
      ∀ s, env.POLL_INTERVAL_SECONDS = some s → s ≠ "" →
        POLL_INTERVAL_SCHEDULER_SECONDS env = parseIntJS s) ∧
    (envFalsy env.POLL_INTERVAL_SCHEDULER_SECONDS → envFalsy env.POLL_INTERVAL_SECONDS →
      POLL_INTERVAL_SCHEDULER_SECONDS env = some 120) := by
  refine ⟨?_, ?_, ?_, ?_, ?_, ?_⟩
  · intro s hs hne
    simp [POLL_INTERVAL_BILLING_SECONDS, envOr, hs, hne]
  · rintro (h | h) s hs hne <;>
      simp [POLL_INTERVAL_BILLING_SECONDS, envOr, h, hs, hne]
  · rintro (h1 | h1) (h2 | h2) <;>
      simp [POLL_INTERVAL_BILLING_SECONDS, envOr, h1, h2] <;> rfl
  · intro s hs hne
    simp [POLL_INTERVAL_SCHEDULER_SECONDS, envOr, hs, hne]
  · rintro (h | h) s hs hne <;>
      simp [POLL_INTERVAL_SCHEDULER_SECONDS, envOr, h, hs, hne]
  · rintro (h1 | h1) (h2 | h2) <;>
      simp [POLL_INTERVAL_SCHEDULER_SECONDS, envOr, h1, h2] <;> rfl

/-- Witness for C7: billing=60 with shared=30 picks 60; the scheduler
variable unset falls back to 30; with everything unset both default
to 120. -/
theorem C7_poll_interval_witness :
    POLL_INTERVAL_BILLING_SECONDS envEx = some 60 ∧
    POLL_INTERVAL_SCHEDULER_SECONDS envEx = some 30 ∧
    POLL_INTERVAL_BILLING_SECONDS envNone = some 120 ∧
    POLL_INTERVAL_SCHEDULER_SECONDS envNone = some 120 := by
  have h1 := C7_poll_interval_resolution envEx
  have h2 := C7_poll_interval_resolution envNone
  refine ⟨?_, ?_, h2.2.2.1 (Or.inl rfl) (Or.inl rfl), h2.2.2.2.2.2 (Or.inl rfl) (Or.inl rfl)⟩
  · rw [h1.1 ("60") rfl (by decide)]
    rfl
  · rw [h1.2.2.2.2.1 (Or.inl rfl) ("30") rfl (by decide)]
    rfl

/-- Witness for C10: a 200 response whose body is null. -/
theorem C10_null_due_body_witness :
    fetchDueSchedules 100 (fun _ => .resolved (some { status := 200, data := none })) =
      .ok none ∧
    runSchedulesOnce 100 (fun _ => .resolved (some { status := 200, data := none }))
        (fun _ _ => (CallOutcome.throws (α := Nat) ⟨false, false, false⟩)) = .ran [] := by
  have hf : fetchDueSchedules 100
      (fun _ => .resolved (some { status := 200, data := none })) = .ok none := by
    simp [fetchDueSchedules, pRetry, pRetryGo, attemptCheck]
  exact ⟨hf, C10_null_due_body_safe _ _ _ _ hf⟩

end Scheduler
